import Mathlib

/-!
Shallow embedding of the AI Oral Quiz Grader core logic, taken from
src/grader_logic.py and src/streamlit_app.py.

External capabilities (the sentence embedding model, the cosine
similarity routine of the sentence_transformers util module, the
whisper speech-to-text engine, the audio device, the file system and
JSON parsing) are modelled as explicit function parameters; numeric
computation is modelled over the rationals, with an explicit model of
the Python round builtin (round half to even).
-/

namespace OralQuiz

/-- Model of the Python round builtin restricted to rationals: round
half to even, returning an integer. -/
def pyRound (x : ℚ) : ℤ :=
  if Int.fract x < 1 / 2 then ⌊x⌋
  else if 1 / 2 < Int.fract x then ⌊x⌋ + 1
  else if 2 ∣ ⌊x⌋ then ⌊x⌋ else ⌊x⌋ + 1

/-- Model of Python round(x, ndigits) for a nonnegative digit count. -/
def roundTo (ndigits : ℕ) (x : ℚ) : ℚ :=
  (pyRound (x * 10 ^ ndigits) : ℚ) / 10 ^ ndigits

/-- Model of the Python str.lower method: per character lowering. -/
def py_lower (s : String) : String :=
  ⟨s.data.map Char.toLower⟩

/-- Grading status strings used by the program. -/
inductive Status where
  | PASS
  | FAIL
  | ERROR
  deriving DecidableEq, Repr

/-- The dictionary returned by AudioAutoGrader.grade_response. -/
structure GradeResult where
  grade : ℚ
  similarity_score : ℚ
  status : Status
  deriving DecidableEq, Repr

/-- A question record as stored in the question bank. -/
structure QuestionRecord where
  id : ℤ
  question : String
  reference : String
  keywords : String
  deriving DecidableEq, Repr

/-- The built-in backup question that AudioAutoGrader.load_questions
returns on a load error (src/grader_logic.py lines 21 to 26). -/
def default_question : QuestionRecord :=
  { id := 0,
    question := "Sample Question: What is Biology?",
    reference := "Biology is the study of life and living organisms.",
    keywords := "study, life, organisms" }

/-- AudioAutoGrader.load_questions (src/grader_logic.py lines 13 to 26).
The json.load call is external, so its outcome is a parameter:
Except.ok qs models a successful parse yielding the list qs, and
Except.error models any raised exception (absent file, unreadable
file, malformed JSON). The except branch returns the single backup
question. -/
def load_questions (parsed : Except String (List QuestionRecord)) :
    List QuestionRecord :=
  match parsed with
  | Except.ok qs => qs
  | Except.error _ => [default_question]

/-- Audio samples (a float32 mono buffer) modelled as rationals. -/
abbrev AudioBuffer := List ℚ

/-- AudioAutoGrader.record_audio (src/grader_logic.py lines 31 to 41 and
src/streamlit_app.py lines 86 to 96). The sd.rec plus sd.wait pair is
the external capture step and the scipy write call is the external file
write; in the source both run inside one try block whose single except
clause returns None. -/
def record_audio (capture : Except String AudioBuffer)
    (write_file : String → AudioBuffer → Except String Unit)
    (filename : String) : Option String :=
  match capture with
  | Except.error _ => none
  | Except.ok recording =>
      match write_file filename recording with
      | Except.error _ => none
      | Except.ok _ => some filename

/-- AudioAutoGrader.transcribe (src/grader_logic.py lines 43 to 50 and
src/streamlit_app.py lines 98 to 108). The whisper engine call is a
parameter mapping the audio path and the prompt hint to a transcript or
an error; a transcript is returned trimmed, an engine error yields the
empty string. -/
def transcribe (stt_model : String → String → Except String String)
    (audio_path context_keywords : String) : String :=
  match stt_model audio_path context_keywords with
  | Except.ok res => res.trim
  | Except.error _ => ""

namespace GraderLogic

/-- AudioAutoGrader.grade_response of src/grader_logic.py lines 52 to 73.
The parameter encode is the external sentence embedding model and
cos_sim is the external cosine similarity of the sentence_transformers
util module; its 1 by 1 result tensor is modelled directly by the
scalar that the .item() call extracts. Besides the GradeResult
dictionary, the model returns the list of texts passed to encode, in
call order, so that the absence of an embedding call is expressible. -/
def grade_response {V : Type} (encode : String → V) (cos_sim : V → V → ℚ)
    (student_text reference_answer : String) (threshold : ℚ) :
    GradeResult × List String :=
  if student_text = "" then
    ({ grade := 0, similarity_score := 0, status := Status.FAIL }, [])
  else
    let emb1 := encode (py_lower student_text)
    let emb2 := encode (py_lower reference_answer)
    let score := cos_sim emb1 emb2
    let grade := max 0 score * 100
    let status := if threshold ≤ score then Status.PASS else Status.FAIL
    ({ grade := roundTo 2 grade, similarity_score := roundTo 4 score,
       status := status },
     [py_lower student_text, py_lower reference_answer])

end GraderLogic

namespace StreamlitApp

/-- AudioAutoGrader.grade_response of src/streamlit_app.py lines 110 to
136. The expression float(cosine_scores[0][0]) extracts the same scalar
from the 1 by 1 similarity tensor that .item() does in the other file,
so cos_sim again yields the scalar directly. -/
def grade_response {V : Type} (encode : String → V) (cos_sim : V → V → ℚ)
    (student_text reference_answer : String) (threshold : ℚ) :
    GradeResult × List String :=
  if student_text = "" then
    ({ grade := 0, similarity_score := 0, status := Status.FAIL }, [])
  else
    let embedding_1 := encode (py_lower student_text)
    let embedding_2 := encode (py_lower reference_answer)
    let cosine_scores := cos_sim embedding_1 embedding_2
    let score := cosine_scores
    let final_grade := max 0 score * 100
    let status := if threshold ≤ score then Status.PASS else Status.FAIL
    ({ grade := roundTo 2 final_grade, similarity_score := roundTo 4 score,
       status := status },
     [py_lower student_text, py_lower reference_answer])

end StreamlitApp

/-- The record-and-grade round of main in src/streamlit_app.py lines
173 to 188, after the capture step: audio_file is the value returned by
record_audio and transcribe_fn is the transcription step (audio path
and keyword hint to transcript). Besides the result dictionary, the
model returns the list of argument pairs passed to the transcription
step, so that the absence of a transcription attempt is expressible. -/
def record_and_grade {V : Type} (encode : String → V) (cos_sim : V → V → ℚ)
    (transcribe_fn : String → String → String)
    (audio_file : Option String) (keywords reference : String)
    (threshold : ℚ) : GradeResult × List (String × String) :=
  match audio_file with
  | some f =>
      let student_text := transcribe_fn f keywords
      ((StreamlitApp.grade_response encode cos_sim student_text reference
          threshold).1,
       [(f, keywords)])
  | none =>
      ({ grade := 0, similarity_score := 0, status := Status.ERROR }, [])

/-- The pipeline states named by the specification. -/
inductive PipelineState where
  | IDLE
  | QUESTION_SELECTED
  | RECORDING
  | TRANSCRIBING
  | GRADED
  | FAILED
  deriving DecidableEq, Repr

/-- The persistent Streamlit session state of main (src/streamlit_app.py
lines 150 to 164): the current question and the stored last result. -/
structure SessionState where
  current_question : Option QuestionRecord
  last_result : Option GradeResult
  deriving DecidableEq, Repr

/-- The Get New Question handler (src/streamlit_app.py lines 160 to
164): it stores the freshly selected question and deletes any stored
last result. The prior session state is ignored entirely, which is why
the handler behaves the same from every state. -/
def new_question (selected : QuestionRecord) (_prev : SessionState) :
    SessionState :=
  { current_question := some selected, last_result := none }

/-- Abstraction from the stored session state to the specification
states observable between Streamlit reruns: no question selected is
IDLE, a question with no stored result is QUESTION_SELECTED, a question
with a stored result is GRADED, or FAILED when that result carries the
ERROR status. -/
def phase_of (s : SessionState) : PipelineState :=
  match s.current_question, s.last_result with
  | none, _ => PipelineState.IDLE
  | some _, none => PipelineState.QUESTION_SELECTED
  | some _, some res =>
      if res.status = Status.ERROR then PipelineState.FAILED
      else PipelineState.GRADED

/-! Helper lemmas about the rounding model. -/

lemma pyRound_intCast (n : ℤ) : pyRound (n : ℚ) = n := by
  unfold pyRound
  rw [Int.fract_intCast, Int.floor_intCast]
  norm_num

lemma pyRound_le_add_half (x : ℚ) : (pyRound x : ℚ) ≤ x + 1 / 2 := by
  have h0 : (0 : ℚ) ≤ Int.fract x := Int.fract_nonneg x
  have h1 : Int.fract x < 1 := Int.fract_lt_one x
  have hf : (⌊x⌋ : ℚ) = x - Int.fract x := by
    rw [Int.self_sub_fract]
  unfold pyRound
  split_ifs with hlt hgt hdvd <;> push_cast <;> linarith

lemma sub_half_le_pyRound (x : ℚ) : x - 1 / 2 ≤ (pyRound x : ℚ) := by
  have h0 : (0 : ℚ) ≤ Int.fract x := Int.fract_nonneg x
  have h1 : Int.fract x < 1 := Int.fract_lt_one x
  have hf : (⌊x⌋ : ℚ) = x - Int.fract x := by
    rw [Int.self_sub_fract]
  unfold pyRound
  split_ifs with hlt hgt hdvd <;> push_cast <;> linarith

lemma pyRound_nonneg (x : ℚ) (h : 0 ≤ x) : 0 ≤ pyRound x := by
  have hlow := sub_half_le_pyRound x
  have : (-1 : ℤ) < pyRound x := by
    have : (-1 : ℚ) < (pyRound x : ℚ) := by linarith
    exact_mod_cast this
  omega

lemma pyRound_nonpos (x : ℚ) (h : x ≤ 0) : pyRound x ≤ 0 := by
  have hup := pyRound_le_add_half x
  have : pyRound x < (1 : ℤ) := by
    have : (pyRound x : ℚ) < 1 := by linarith
    exact_mod_cast this
  omega

lemma pyRound_max_zero (x : ℚ) : pyRound (max 0 x) = max 0 (pyRound x) := by
  rcases le_total x 0 with hx | hx
  · rw [max_eq_left hx, max_eq_left (pyRound_nonpos x hx)]
    have : ((0 : ℤ) : ℚ) = (0 : ℚ) := by norm_num
    rw [← this, pyRound_intCast]
  · rw [max_eq_right hx, max_eq_right (pyRound_nonneg x hx)]

lemma roundTo_zero (n : ℕ) : roundTo n 0 = 0 := by
  unfold roundTo
  rw [zero_mul]
  have : ((0 : ℤ) : ℚ) = (0 : ℚ) := by norm_num
  rw [← this, pyRound_intCast]
  norm_num

lemma roundTo_nonneg (n : ℕ) (x : ℚ) (h : 0 ≤ x) : 0 ≤ roundTo n x := by
  unfold roundTo
  apply div_nonneg
  · exact_mod_cast pyRound_nonneg _ (by positivity)
  · positivity

lemma roundTo_le_of_le (n : ℕ) (x : ℚ) (m : ℤ) (h : x ≤ (m : ℚ)) :
    roundTo n x ≤ (m : ℚ) := by
  have hpow : (0 : ℚ) < 10 ^ n := by positivity
  have h2 : x * 10 ^ n ≤ (m : ℚ) * 10 ^ n :=
    mul_le_mul_of_nonneg_right h (le_of_lt hpow)
  have h3 : (pyRound (x * 10 ^ n) : ℚ) < (m : ℚ) * 10 ^ n + 1 := by
    have := pyRound_le_add_half (x * 10 ^ n)
    linarith
  have h4 : pyRound (x * 10 ^ n) < m * 10 ^ n + 1 := by
    exact_mod_cast h3
  have h5 : pyRound (x * 10 ^ n) ≤ m * 10 ^ n := by omega
  unfold roundTo
  rw [div_le_iff₀ hpow]
  exact_mod_cast h5

lemma le_roundTo_of_le (n : ℕ) (x : ℚ) (m : ℤ) (h : (m : ℚ) ≤ x) :
    (m : ℚ) ≤ roundTo n x := by
  have hpow : (0 : ℚ) < 10 ^ n := by positivity
  have h2 : (m : ℚ) * 10 ^ n ≤ x * 10 ^ n :=
    mul_le_mul_of_nonneg_right h (le_of_lt hpow)
  have h3 : (m : ℚ) * 10 ^ n - 1 < (pyRound (x * 10 ^ n) : ℚ) := by
    have := sub_half_le_pyRound (x * 10 ^ n)
    linarith
  have h4 : m * 10 ^ n - 1 < pyRound (x * 10 ^ n) := by
    exact_mod_cast h3
  have h5 : m * 10 ^ n ≤ pyRound (x * 10 ^ n) := by omega
  unfold roundTo
  rw [le_div_iff₀ hpow]
  exact_mod_cast h5

/-- Rounding the similarity to four decimals first and then computing
the rounded grade gives the same grade the source computes from the raw
similarity: both equal max 0 (pyRound of the similarity times ten to
the four) over one hundred. -/
lemma roundTo_grade (s : ℚ) :
    roundTo 2 (max 0 (roundTo 4 s) * 100) = roundTo 2 (max 0 s * 100) := by
  have h4 : roundTo 4 s = (pyRound (s * 10 ^ 4) : ℚ) / 10 ^ 4 := rfl
  set k : ℤ := pyRound (s * 10 ^ 4) with hk
  have hB : max 0 ((k : ℚ) / 10 ^ 4) * 100 = max 0 (k : ℚ) / 100 := by
    rcases le_total (k : ℚ) 0 with hk0 | hk0
    · rw [max_eq_left (div_nonpos_of_nonpos_of_nonneg hk0 (by norm_num)),
        max_eq_left hk0]
      norm_num
    · rw [max_eq_right (div_nonneg hk0 (by norm_num)), max_eq_right hk0]
      ring
  have hC : roundTo 2 (max 0 (k : ℚ) / 100) = ((max 0 k : ℤ) : ℚ) / 100 := by
    unfold roundTo
    have harg : max 0 (k : ℚ) / 100 * 10 ^ 2 = ((max 0 k : ℤ) : ℚ) := by
      push_cast
      rw [show ((10 : ℚ) ^ 2) = 100 by norm_num,
        div_mul_cancel₀ _ (show (100 : ℚ) ≠ 0 by norm_num)]
    rw [harg, pyRound_intCast]
    norm_num
  have hD : max 0 s * 100 * 10 ^ 2 = max 0 (s * 10 ^ 4) := by
    rw [mul_assoc, max_mul_of_nonneg _ _ (show (0 : ℚ) ≤ 100 * 10 ^ 2 by norm_num)]
    norm_num
  calc roundTo 2 (max 0 (roundTo 4 s) * 100)
      = roundTo 2 (max 0 (k : ℚ) / 100) := by rw [h4, hB]
    _ = ((max 0 k : ℤ) : ℚ) / 100 := hC
    _ = roundTo 2 (max 0 s * 100) := by
        unfold roundTo
        rw [hD, pyRound_max_zero, ← hk]
        norm_num

/-- Lowering a string yields the empty string exactly when the string
was empty, because per character lowering preserves length. -/
lemma py_lower_empty_iff (s : String) : py_lower s = "" ↔ s = "" := by
  obtain ⟨d⟩ := s
  have hnil : ("" : String).data = [] := by decide
  constructor
  · intro h
    have h2 := congrArg String.data h
    rw [hnil] at h2
    have h3 : d.map Char.toLower = [] := h2
    have h4 : d = [] := List.map_eq_nil_iff.mp h3
    subst h4
    apply String.ext
    rw [hnil]
  · intro h
    have h2 := congrArg String.data h
    rw [hnil] at h2
    have h3 : d = [] := h2
    subst h3
    apply String.ext
    rw [hnil]
    rfl

/-- The grader_logic version of grade_response never yields ERROR. -/
lemma graderLogic_status_ne_error {V : Type} (encode : String → V)
    (cos_sim : V → V → ℚ) (s r : String) (t : ℚ) :
    (GraderLogic.grade_response encode cos_sim s r t).1.status ≠
      Status.ERROR := by
  unfold GraderLogic.grade_response
  by_cases h : s = ""
  · simp [h]
  · simp only [if_neg h]
    split_ifs <;> simp

/-- The streamlit_app version of grade_response never yields ERROR. -/
lemma streamlitApp_status_ne_error {V : Type} (encode : String → V)
    (cos_sim : V → V → ℚ) (s r : String) (t : ℚ) :
    (StreamlitApp.grade_response encode cos_sim s r t).1.status ≠
      Status.ERROR := by
  unfold StreamlitApp.grade_response
  by_cases h : s = ""
  · simp [h]
  · simp only [if_neg h]
    split_ifs <;> simp

/-! The claims. -/

/-- Claim C1: for every nonempty studentText, referenceText and
threshold, the GradeResult returned by grade_response has status PASS
exactly when the cosine similarity between the embeddings of the
lower-cased texts is at least the threshold, and status FAIL otherwise;
status ERROR is returned only when the input text was empty or
unavailable (grade_response itself never yields ERROR, and the round
yields ERROR only when no audio file was available). -/
theorem c1_status_pass_iff_threshold {V : Type} (encode : String → V)
    (cos_sim : V → V → ℚ) (s r : String) (t : ℚ) (h : s ≠ "") :
    ((GraderLogic.grade_response encode cos_sim s r t).1.status =
        Status.PASS ↔
      t ≤ cos_sim (encode (py_lower s)) (encode (py_lower r))) ∧
    ((GraderLogic.grade_response encode cos_sim s r t).1.status =
        Status.FAIL ↔
      cos_sim (encode (py_lower s)) (encode (py_lower r)) < t) ∧
    (∀ s2 : String,
      (GraderLogic.grade_response encode cos_sim s2 r t).1.status ≠
        Status.ERROR) ∧
    (∀ (tf : String → String → String) (af : Option String) (kw : String),
      (record_and_grade encode cos_sim tf af kw r t).1.status =
          Status.ERROR →
        af = none) := by
  refine ⟨?_, ?_, ?_, ?_⟩
  · simp only [GraderLogic.grade_response, if_neg h]
    split_ifs with hts
    · simp [hts]
    · simp [hts]
  · simp only [GraderLogic.grade_response, if_neg h]
    split_ifs with hts
    · simp [not_lt.mpr hts]
    · simp [not_le.mp hts]
  · intro s2
    exact graderLogic_status_ne_error encode cos_sim s2 r t
  · intro tf af kw hstat
    cases af with
    | none => rfl
    | some f =>
        exfalso
        simp only [record_and_grade] at hstat
        exact streamlitApp_status_ne_error encode cos_sim (tf f kw) r t hstat

/-- Claim C1 witness: a concrete engine whose similarity is seven
tenths passes against the default threshold. -/
theorem c1_witness :
    ("hello" : String) ≠ "" ∧
    (GraderLogic.grade_response (fun _ => ()) (fun _ _ => (7 : ℚ) / 10)
        ("hello") ("ref") (65 / 100)).1.status = Status.PASS :=
  ⟨by decide,
    ((c1_status_pass_iff_threshold (fun _ => ()) (fun _ _ => (7 : ℚ) / 10)
        ("hello") ("ref") (65 / 100) (by decide)).1).mpr (by norm_num)⟩

/-- Claim C2: for every GradeResult returned by grade_response on a
nonempty student text, given that the external cosine similarity lies
in the closed interval from minus one to one, the similarity score
field is the similarity rounded to four decimals and lies in that same
interval, the grade field equals max 0 similarityScore times one
hundred rounded to two decimals, the grade lies between zero and one
hundred, and a negative similarity clamps the grade to exactly zero. -/
theorem c2_grade_fields {V : Type} (encode : String → V)
    (cos_sim : V → V → ℚ) (s r : String) (t : ℚ) (h : s ≠ "")
    (h1 : -1 ≤ cos_sim (encode (py_lower s)) (encode (py_lower r)))
    (h2 : cos_sim (encode (py_lower s)) (encode (py_lower r)) ≤ 1) :
    (GraderLogic.grade_response encode cos_sim s r t).1.similarity_score =
      roundTo 4 (cos_sim (encode (py_lower s)) (encode (py_lower r))) ∧
    (GraderLogic.grade_response encode cos_sim s r t).1.grade =
      roundTo 2 (max 0
        (GraderLogic.grade_response encode cos_sim s r t).1.similarity_score
        * 100) ∧
    -1 ≤ (GraderLogic.grade_response encode cos_sim s r t).1.similarity_score ∧
    (GraderLogic.grade_response encode cos_sim s r t).1.similarity_score ≤ 1 ∧
    0 ≤ (GraderLogic.grade_response encode cos_sim s r t).1.grade ∧
    (GraderLogic.grade_response encode cos_sim s r t).1.grade ≤ 100 ∧
    (cos_sim (encode (py_lower s)) (encode (py_lower r)) < 0 →
      (GraderLogic.grade_response encode cos_sim s r t).1.grade = 0) := by
  set score := cos_sim (encode (py_lower s)) (encode (py_lower r)) with hsc
  have hfst : (GraderLogic.grade_response encode cos_sim s r t).1 =
      { grade := roundTo 2 (max 0 score * 100),
        similarity_score := roundTo 4 score,
        status := if t ≤ score then Status.PASS else Status.FAIL } := by
    unfold GraderLogic.grade_response
    rw [if_neg h]
  rw [hfst]
  have hm1 : ((-1 : ℤ) : ℚ) ≤ score := by exact_mod_cast h1
  have hp1 : score ≤ ((1 : ℤ) : ℚ) := by exact_mod_cast h2
  have hmax1 : max 0 score ≤ 1 := max_le (by norm_num) h2
  refine ⟨rfl, (roundTo_grade score).symm, ?_, ?_, ?_, ?_, ?_⟩
  · have := le_roundTo_of_le 4 score (-1) hm1
    exact_mod_cast this
  · have := roundTo_le_of_le 4 score 1 hp1
    exact_mod_cast this
  · exact roundTo_nonneg 2 _ (mul_nonneg (le_max_left 0 score) (by norm_num))
  · have harg : max 0 score * 100 ≤ ((100 : ℤ) : ℚ) := by
      push_cast
      linarith
    have := roundTo_le_of_le 2 (max 0 score * 100) 100 harg
    exact_mod_cast this
  · intro hneg
    show roundTo 2 (max 0 score * 100) = 0
    rw [max_eq_left (le_of_lt hneg), zero_mul, roundTo_zero]

/-- Claim C2 witness: a concrete engine whose similarity is three
tenths, against the default threshold. -/
theorem c2_witness :
    ("hi" : String) ≠ "" ∧
    ((GraderLogic.grade_response (fun _ => ()) (fun _ _ => (3 : ℚ) / 10)
        ("hi") ("ref") (65 / 100)).1.similarity_score =
      roundTo 4 ((3 : ℚ) / 10) ∧
    (GraderLogic.grade_response (fun _ => ()) (fun _ _ => (3 : ℚ) / 10)
        ("hi") ("ref") (65 / 100)).1.grade =
      roundTo 2 (max 0
        (GraderLogic.grade_response (fun _ => ()) (fun _ _ => (3 : ℚ) / 10)
          ("hi") ("ref") (65 / 100)).1.similarity_score * 100) ∧
    -1 ≤ (GraderLogic.grade_response (fun _ => ()) (fun _ _ => (3 : ℚ) / 10)
        ("hi") ("ref") (65 / 100)).1.similarity_score ∧
    (GraderLogic.grade_response (fun _ => ()) (fun _ _ => (3 : ℚ) / 10)
        ("hi") ("ref") (65 / 100)).1.similarity_score ≤ 1 ∧
    0 ≤ (GraderLogic.grade_response (fun _ => ()) (fun _ _ => (3 : ℚ) / 10)
        ("hi") ("ref") (65 / 100)).1.grade ∧
    (GraderLogic.grade_response (fun _ => ()) (fun _ _ => (3 : ℚ) / 10)
        ("hi") ("ref") (65 / 100)).1.grade ≤ 100 ∧
    ((3 : ℚ) / 10 < 0 →
      (GraderLogic.grade_response (fun _ => ()) (fun _ _ => (3 : ℚ) / 10)
        ("hi") ("ref") (65 / 100)).1.grade = 0)) :=
  ⟨by decide,
    c2_grade_fields (fun _ => ()) (fun _ _ => (3 : ℚ) / 10) ("hi") ("ref")
      (65 / 100) (by decide) (by norm_num) (by norm_num)⟩

/-- Claim C3: for every referenceText and every threshold, calling
grade_response with an empty studentText returns exactly grade zero,
similarity score zero and status FAIL, with an empty embedding call
trace, and the outcome does not depend on the embedding capability at
all. -/
theorem c3_empty_shortcircuit {V : Type} (encode : String → V)
    (cos_sim : V → V → ℚ) (r : String) (t : ℚ) :
    GraderLogic.grade_response encode cos_sim ("") r t =
      ({ grade := 0, similarity_score := 0, status := Status.FAIL },
        ([] : List String)) ∧
    ∀ (V2 : Type) (encode2 : String → V2) (cos_sim2 : V2 → V2 → ℚ),
      (GraderLogic.grade_response encode cos_sim ("") r t).1 =
        (GraderLogic.grade_response encode2 cos_sim2 ("") r t).1 := by
  constructor
  · simp [GraderLogic.grade_response]
  · intro V2 encode2 cos_sim2
    simp [GraderLogic.grade_response]

/-- Claim C4: in the record-and-grade round, a capture failure (no
audio file) means no transcription is attempted (empty transcription
trace) and the round result is grade zero with status ERROR; a
successful capture with a failing transcription (empty transcript)
passes the empty string to grade_response, yielding status FAIL with
grade zero rather than halting the round. -/
theorem c4_round_failure_semantics {V : Type} (encode : String → V)
    (cos_sim : V → V → ℚ) (kw ref : String) (t : ℚ) :
    (∀ tf : String → String → String,
      record_and_grade encode cos_sim tf none kw ref t =
        ({ grade := 0, similarity_score := 0, status := Status.ERROR },
          ([] : List (String × String)))) ∧
    (∀ (tf : String → String → String) (f : String), tf f kw = "" →
      record_and_grade encode cos_sim tf (some f) kw ref t =
        ({ grade := 0, similarity_score := 0, status := Status.FAIL },
          [(f, kw)])) := by
  constructor
  · intro tf
    rfl
  · intro tf f htf
    simp [record_and_grade, htf, StreamlitApp.grade_response]

/-- Claim C4 witness: a concrete round with a captured file and an
always failing transcription step. -/
theorem c4_witness :
    ((fun _ _ => "") : String → String → String) ("a.wav") ("kw") = "" ∧
    record_and_grade (fun _ : String => ()) (fun _ _ => (1 : ℚ) / 2)
        (fun _ _ => "") (some ("a.wav")) ("kw") ("ref") (65 / 100) =
      ({ grade := 0, similarity_score := 0, status := Status.FAIL },
        [(("a.wav"), ("kw"))]) :=
  ⟨rfl,
    (c4_round_failure_semantics (fun _ : String => ())
        (fun _ _ => (1 : ℚ) / 2) ("kw") ("ref") (65 / 100)).2
      (fun _ _ => "") ("a.wav") rfl⟩

/-- Claim C5 counterexample: a source that parses successfully to the
empty JSON list makes load_questions return the empty list, so
load_questions does not guarantee a nonempty result. -/
theorem c5_counterexample :
    load_questions (Except.ok ([] : List QuestionRecord)) =
      ([] : List QuestionRecord) := rfl

/-- Claim C5 amended: load_questions returns the parsed question list
unchanged, even if that parsed list is empty; on any load error it
returns exactly one record, the built-in fallback with id zero, and
never propagates the error. -/
theorem c5_amended :
    ∀ (qs : List QuestionRecord) (e : String),
      load_questions (Except.ok qs) = qs ∧
      load_questions (Except.error e) = [default_question] ∧
      (load_questions (Except.error e)).length = 1 ∧
      default_question.id = 0 := by
  intro qs e
  exact ⟨rfl, rfl, rfl, rfl⟩

/-- Claim C6 counterexample: a file write failure after a successful
capture produces exactly the same outcome, None, as a device capture
failure, so the two failures are not reported separately. -/
theorem c6_counterexample :
    record_audio (Except.ok ([0] : AudioBuffer))
        (fun _ _ => Except.error ("write failed"))
        ("student_response.wav") =
      record_audio (Except.error ("device unavailable"))
        (fun _ _ => Except.ok ()) ("student_response.wav") := rfl

/-- Claim C6 amended: capture failure and file-write failure are both
caught by the single except clause of record_audio and both yield the
identical failure outcome None; only when capture and write both
succeed is the filename returned. -/
theorem c6_amended :
    ∀ (e e2 : String) (w : String → AudioBuffer → Except String Unit)
      (buf : AudioBuffer) (fn : String),
      record_audio (Except.error e) w fn = none ∧
      record_audio (Except.ok buf) (fun _ _ => Except.error e2) fn = none ∧
      record_audio (Except.ok buf) (fun _ _ => Except.ok ()) fn = some fn := by
  intro e e2 w buf fn
  exact ⟨rfl, rfl, rfl⟩

/-- Claim C7: for every audio path and hint string, transcribe returns
the engine transcript trimmed of leading and trailing whitespace, and
on any engine error it returns the empty string instead of raising. -/
theorem c7_transcribe_trim_or_empty :
    ∀ (stt : String → String → Except String String) (path hint : String),
      (∀ res : String, stt path hint = Except.ok res →
        transcribe stt path hint = res.trim) ∧
      (∀ e : String, stt path hint = Except.error e →
        transcribe stt path hint = "") := by
  intro stt path hint
  constructor
  · intro res hres
    simp [transcribe, hres]
  · intro e he
    simp [transcribe, he]

/-- Claim C7 witness: a concrete engine returning a padded transcript. -/
theorem c7_witness :
    ((fun _ _ => Except.ok ("  hello  ")) :
        String → String → Except String String) ("a.wav") ("kw") =
      Except.ok ("  hello  ") ∧
    transcribe (fun _ _ => Except.ok ("  hello  ")) ("a.wav") ("kw") =
      ("  hello  ").trim :=
  ⟨rfl,
    (c7_transcribe_trim_or_empty (fun _ _ => Except.ok ("  hello  "))
        ("a.wav") ("kw")).1 ("  hello  ") rfl⟩

/-- Claim C8: grade_response is invariant under the case of its two
text inputs: any two inputs with the same lower casing grade alike,
because both texts are lower-cased before embedding and lower casing
preserves emptiness. -/
theorem c8_case_insensitive {V : Type} (encode : String → V)
    (cos_sim : V → V → ℚ) (s s2 r r2 : String) (t : ℚ)
    (hs : py_lower s = py_lower s2) (hr : py_lower r = py_lower r2) :
    GraderLogic.grade_response encode cos_sim s r t =
      GraderLogic.grade_response encode cos_sim s2 r2 t := by
  by_cases h : s = ""
  · have h2 : s2 = "" := by
      have hps := (py_lower_empty_iff s).mpr h
      rw [hs] at hps
      exact (py_lower_empty_iff s2).mp hps
    rw [h, h2]
    simp [GraderLogic.grade_response]
  · have h2 : s2 ≠ "" := by
      intro hcon
      apply h
      have hps := (py_lower_empty_iff s2).mpr hcon
      rw [← hs] at hps
      exact (py_lower_empty_iff s).mp hps
    unfold GraderLogic.grade_response
    rw [if_neg h, if_neg h2, hs, hr]

/-- Claim C8 witness: grading the capitalized word equals grading the
lower-case word against the same reference and threshold. -/
theorem c8_witness :
    py_lower ("Photosynthesis") = py_lower ("photosynthesis") ∧
    GraderLogic.grade_response (fun _ : String => ())
        (fun _ _ => (1 : ℚ) / 2) ("Photosynthesis") ("ref") (65 / 100) =
      GraderLogic.grade_response (fun _ : String => ())
        (fun _ _ => (1 : ℚ) / 2) ("photosynthesis") ("ref") (65 / 100) :=
  ⟨by decide,
    c8_case_insensitive (fun _ : String => ()) (fun _ _ => (1 : ℚ) / 2)
      ("Photosynthesis") ("photosynthesis") ("ref") ("ref") (65 / 100)
      (by decide) rfl⟩

/-- Claim C9: from every session state, the Get New Question handler
lands in QUESTION_SELECTED with the freshly selected question stored
and no stale grading result retained. -/
theorem c9_new_question_resets :
    ∀ (prev : SessionState) (q : QuestionRecord),
      phase_of (new_question q prev) = PipelineState.QUESTION_SELECTED ∧
      (new_question q prev).current_question = some q ∧
      (new_question q prev).last_result = none := by
  intro prev q
  exact ⟨rfl, rfl, rfl⟩

/-- Claim C10: the grade_response implementations of grader_logic.py
and streamlit_app.py compute the same function for every student text,
reference text and threshold, given identical outputs from the
embedding capability. -/
theorem c10_implementations_agree {V : Type} (encode : String → V)
    (cos_sim : V → V → ℚ) (s r : String) (t : ℚ) :
    GraderLogic.grade_response encode cos_sim s r t =
      StreamlitApp.grade_response encode cos_sim s r t := rfl

end OralQuiz
